import Mathlib

/-!
# relay-go: request/response correlation engine

A shallow embedding of `lib.go` (package `relaygo`).

* The device record is passed explicitly; every method takes the state and
  returns the new state together with its Go results.
* Goroutine scheduling is outside a sequential function, so the three things
  the environment decides are inputs: the fresh request identifier that
  `makeID` draws, which case of the `select` in `sendMsg` fires
  (`WaitOutcome`), and which case of the `select` in `recvMsg` fires
  (`Inbound`).
* `encoding/json` is a library outside the repository; it enters as the
  `Codec` argument.  Its matching of object keys to the fields of `resMsg` is
  modelled by `jsonUnmarshal`, over a reader of the text that is an argument.
* A send on an unbuffered reply channel is resolved by `chanSend`: it
  completes, blocks or panics.
* A Go panic is a third kind of result next to a value and an error.
* The race between the dispatch loop and a waiting `sendMsg` is studied in
  a separate small-step model (`Race`), built from the same table operations.
-/

namespace RelayGo

/-! ## Data model -/

/-- Response timeout in seconds (`const RES_TIMEOUT = 60`). -/
def RES_TIMEOUT : Nat := 60

/-- Go `[]byte`. -/
abbrev Bytes := List UInt8

/-- Identity of a reply channel made by `make(chan resMsg)`. -/
abbrev Chan := Nat

/-- The dynamic value an `interface{}` holds after `json.Unmarshal`:
`nil` for JSON null (or an absent key), `string`, `bool`, `float64` (kept here
as a decimal mantissa and exponent), `[]interface{}` and
`map[string]interface{}`.  For the last two only the dynamic type matters to
the code, so their contents are not kept. -/
inductive Dyn where
  | nil
  | str (s : String)
  | bool (b : Bool)
  | number (mantissa : Int) (exponent : Int)
  | slice
  | object
  deriving DecidableEq, Repr

/-- Go `v != nil` on an interface value. -/
def Dyn.neNil : Dyn → Bool
  | .nil => false
  | _ => true

/-- Go `v != s` for an interface value `v` and a string `s`: interface values
are equal only when the dynamic types agree and the values are equal; a
comparison across dynamic types is false and does not panic. -/
def Dyn.neString : Dyn → String → Bool
  | .str t, s => t != s
  | _, _ => true

/-- Go `v.(string)`, the unchecked type assertion: it yields the string when
the dynamic type is `string` and panics otherwise (`none`). -/
def Dyn.assertString : Dyn → Option String
  | .str s => some s
  | _ => none

/-- The record `resMsg`. -/
structure resMsg where
  ReqID : String
  ReqType : String
  Error : Dyn
  Button : String
  Taps : String
  Source : String
  ID : String
  Name : String
  Event : String
  NotificationState : String
  IndoorLocation : String
  LatLong : String
  Text : String
  Battery : Int
  Value : String
  deriving DecidableEq, Repr

/-- The zero value `resMsg{}`. -/
def resMsg.zero : resMsg :=
  { ReqID := "", ReqType := "", Error := .nil, Button := "", Taps := "",
    Source := "", ID := "", Name := "", Event := "", NotificationState := "",
    IndoorLocation := "", LatLong := "", Text := "", Battery := 0, Value := "" }

/-- The record `reqMsg`. -/
structure reqMsg where
  ReqID : String
  ReqType : String
  Query : String
  Refresh : Bool
  Name : String
  deriving DecidableEq, Repr

/-- The record `reqVibrateMsg`. -/
structure reqVibrateMsg where
  ReqID : String
  ReqType : String
  Pattern : List Int
  deriving DecidableEq, Repr

/-- The record `LedColors`. -/
structure LedColors where
  Ring : String
  deriving DecidableEq, Repr

/-- The record `LedArgs`. -/
structure LedArgs where
  Colors : LedColors
  deriving DecidableEq, Repr

/-- The `encoding/json` functions the package calls.  `json.Marshal` reports an
error only for unsupported types, cycles and failing custom marshalers, none of
which occur in the request records, so the encoders are total.
`json.Unmarshal(msg, &m)` updates the record it is given and returns an error
or nil (`none`). -/
structure Codec where
  marshalReq : reqMsg → Bytes
  marshalVibrate : reqVibrateMsg → Bytes
  unmarshal : Bytes → resMsg → resMsg × Option String

/-- What a Go call produced: a value, a non-nil `error` with its message, or a
runtime panic. -/
inductive Result (α : Type) where
  | ok (a : α)
  | error (msg : String)
  | panic (msg : String)
  deriving DecidableEq, Repr

/-- Lifecycle steps recorded in execution order: the assignment
`d.isTerminated = true` and each execution of `close(d.stopC)`. -/
inductive Lifecycle where
  | markedTerminated
  | closeStop
  deriving DecidableEq, Repr

/-- The record `RelayDevice`.  `sendC` lists the payloads sent on the outbound
channel, oldest first; `stopC` is true once the stop channel is closed;
`terminateOnce` is the done flag of the `sync.Once`.  `chanCount` and
`closedChans` are the heap of reply channels: how many were made, and which
are closed.  `history` records lifecycle steps in order.  The inbound channel
`recvC` is read only by `recvMsg`, which receives its case as an argument. -/
structure RelayDevice where
  sendC : List Bytes
  stopC : Bool
  msgChanMap : String → Option Chan
  terminateOnce : Bool
  isTerminated : Bool
  ID : String
  chanCount : Nat
  closedChans : List Chan
  history : List Lifecycle

/-- Which case of the `select` in `sendMsg` fired. -/
inductive WaitOutcome where
  | reply (res : resMsg)
  | timeout
  | stop
  deriving DecidableEq, Repr

/-! ## The pending-request table -/

/-- Method `getMsgChan`. -/
def getMsgChan (d : RelayDevice) (resID : String) : Except String Chan :=
  match d.msgChanMap resID with
  | some c => .ok c
  | none => .error "channel not found"

/-- Method `setMsgChan`: `d.msgChanMap[resID] = resC`. -/
def setMsgChan (d : RelayDevice) (resID : String) (resC : Chan) : RelayDevice :=
  { d with msgChanMap := fun k => if k = resID then some resC else d.msgChanMap k }

/-- Method `delMsgChan`: `delete(d.msgChanMap, resID)`. -/
def delMsgChan (d : RelayDevice) (resID : String) : RelayDevice :=
  { d with msgChanMap := fun k => if k = resID then none else d.msgChanMap k }

/-- Statement `resC := make(chan resMsg)`: a channel no earlier call made. -/
def makeChan (d : RelayDevice) : Chan × RelayDevice :=
  (d.chanCount, { d with chanCount := d.chanCount + 1 })

/-- Statement `close(resC)`. -/
def closeChan (d : RelayDevice) (resC : Chan) : RelayDevice :=
  { d with closedChans := resC :: d.closedChans }

/-! ## Send and wait -/

/-- Method `IsTerminated`. -/
def IsTerminated (d : RelayDevice) : Bool :=
  d.isTerminated

/-- Method `sendMsg`.  `w` is the case of the `select` that fires.  The send
on the outbound channel appends to `sendC`: the transport bridge drains that
channel, so the send is not a point where this model stops. -/
def sendMsg (d : RelayDevice) (reqID : String) (msg : Bytes) (w : WaitOutcome) :
    RelayDevice × Result resMsg :=
  if IsTerminated d then
    (d, .error "writing to a terminated relay device")
  else
    let (resC, d1) := makeChan d
    let d2 := setMsgChan d1 reqID resC
    let d3 := { d2 with sendC := d2.sendC ++ [msg] }
    match w with
    | .reply res =>
      let d4 := closeChan (delMsgChan d3 reqID) resC
      if res.Error.neNil && res.Error.neString "" then
        match res.Error.assertString with
        | some s => (d4, .error s)
        | none => (d4, .panic "interface conversion: interface is not string")
      else
        (d4, .ok res)
    | .timeout =>
      let d4 := closeChan (delMsgChan d3 reqID) resC
      (d4, .error "request timed out")
    | .stop =>
      let d4 := closeChan (delMsgChan d3 reqID) resC
      (d4, .error "request timed out")

/-! ## Request builders -/

/-- Function `deviceInfoMsg`. -/
def deviceInfoMsg (j : Codec) (id : String) (infoType : String) (refresh : Bool) :
    Except String Bytes :=
  .ok (j.marshalReq
    { ReqID := id, ReqType := "wf_api_get_device_info_request", Query := infoType,
      Refresh := refresh, Name := "" })

/-- Function `vibrateMsg`. -/
def vibrateMsg (j : Codec) (id : String) : Except String Bytes :=
  .ok (j.marshalVibrate
    { ReqID := id, ReqType := "wf_api_vibrate_request",
      Pattern := [100, 500, 500, 500, 500, 500] })

/-- Function `ledMsg`.  The source builds a `reqVibrateMsg` here and never
reads `effect` or `args`. -/
def ledMsg (j : Codec) (id : String) (_effect : String) (_args : LedArgs) :
    Except String Bytes :=
  .ok (j.marshalVibrate
    { ReqID := id, ReqType := "wf_api_vibrate_request",
      Pattern := [100, 500, 500, 500, 500, 500] })

/-- Function `terminateMsg`. -/
def terminateMsg (j : Codec) (id : String) : Except String Bytes :=
  .ok (j.marshalReq
    { ReqID := id, ReqType := "wf_api_terminate_request", Query := "",
      Refresh := false, Name := "" })

/-! ## Haptic and visual-indicator methods

Each method draws its identifier with `makeID()`; the drawn value is the
argument `reqID`. -/

/-- Keeps the error of a `sendMsg` result and drops the reply, as the methods
that return only `error` do. -/
def Result.errorOnly {α : Type} : Result α → Result Unit
  | .ok _ => .ok ()
  | .error e => .error e
  | .panic p => .panic p

/-- Method `Vibrate`. -/
def Vibrate (j : Codec) (d : RelayDevice) (reqID : String) (w : WaitOutcome) :
    RelayDevice × Result Unit :=
  match vibrateMsg j reqID with
  | .error e => (d, .error e)
  | .ok msg =>
    let r := sendMsg d reqID msg w
    (r.1, r.2.errorOnly)

/-- Method `LedStatic`. -/
def LedStatic (j : Codec) (d : RelayDevice) (reqID : String) (w : WaitOutcome) :
    RelayDevice × Result Unit :=
  match ledMsg j reqID "static" { Colors := { Ring := "FFFFFF" } } with
  | .error e => (d, .error e)
  | .ok msg =>
    let r := sendMsg d reqID msg w
    (r.1, r.2.errorOnly)

/-- Method `LedOff`.  `LedArgs{}` is the zero value. -/
def LedOff (j : Codec) (d : RelayDevice) (reqID : String) (w : WaitOutcome) :
    RelayDevice × Result Unit :=
  match ledMsg j reqID "off" { Colors := { Ring := "" } } with
  | .error e => (d, .error e)
  | .ok msg =>
    let r := sendMsg d reqID msg w
    (r.1, r.2.errorOnly)

/-! ## Termination -/

/-- Statement `close(d.stopC)`.  Closing a closed channel panics; the Boolean
says whether it did.  Every execution is recorded in the history. -/
def closeStopC (d : RelayDevice) : RelayDevice × Bool :=
  if d.stopC then
    ({ d with history := d.history ++ [.closeStop] }, true)
  else
    ({ d with stopC := true, history := d.history ++ [.closeStop] }, false)

/-- Runs the deferred `close(d.stopC)` of `terminate` on the way out, whether
the body returned or panicked.  A panic of the body stays the result unless the
close itself panics. -/
def runDeferredClose (body : RelayDevice × Result Unit) : RelayDevice × Result Unit :=
  let r := closeStopC body.1
  if r.2 then (r.1, .panic "close of closed channel") else (r.1, body.2)

/-- Method `terminate`: the body runs, then the deferred close. -/
def terminate (j : Codec) (d : RelayDevice) (reqID : String) (w : WaitOutcome) :
    RelayDevice × Result Unit :=
  runDeferredClose <|
    match terminateMsg j reqID with
    | .error e => (d, .error e)
    | .ok msg =>
      match sendMsg d reqID msg w with
      | (d1, .panic p) => (d1, .panic p)
      | (d1, .error e) =>
        ({ d1 with isTerminated := true, history := d1.history ++ [.markedTerminated] },
          .error e)
      | (d1, .ok _) =>
        ({ d1 with isTerminated := true, history := d1.history ++ [.markedTerminated] },
          .ok ())

/-- Method `Terminate`: `d.terminateOnce.Do(func() { d.terminate() })`.
`sync.Once` marks itself done also when the function panics, and the panic
reaches the caller; the error `terminate` returns is dropped. -/
def Terminate (j : Codec) (d : RelayDevice) (reqID : String) (w : WaitOutcome) :
    RelayDevice × Result Unit :=
  if d.terminateOnce then
    (d, .ok ())
  else
    let r := terminate j d reqID w
    ({ r.1 with terminateOnce := true },
      match r.2 with
      | .panic p => .panic p
      | _ => .ok ())

/-- Calls `Terminate` once for each element of `calls`, in order; a call is
the identifier `makeID` would draw and the outcome its wait would have.
A panicking call is recovered by the caller and the next call follows. -/
def TerminateAll (j : Codec) (d : RelayDevice) : List (String × WaitOutcome) → RelayDevice
  | [] => d
  | c :: cs => TerminateAll j (Terminate j d c.1 c.2).1 cs

/-! ## Dispatch loop -/

/-- Which case of the `select` in `recvMsg` fired: the stop channel, the
inbound channel reporting that it is closed (`ok` false), or a message. -/
inductive Inbound where
  | stop
  | closed
  | msg (b : Bytes)
  deriving DecidableEq, Repr

/-- How a send `c <- m` on an unbuffered channel resolves: a goroutine blocked
in a receive on `c` takes the value; no goroutine receives and the sender
blocks; or the channel is closed and the send panics. -/
inductive SendOutcome where
  | received
  | blocked
  | panicked
  deriving DecidableEq, Repr

/-- The send `c <- m` against the state of the channels: `closed` are the
closed channels, `receivers` the channels on which a goroutine is blocked in a
receive.  A send on a closed channel panics; a send on an open channel
completes only with a receiver. -/
def chanSend (closed receivers : List Chan) (c : Chan) : SendOutcome :=
  if c ∈ closed then .panicked
  else if c ∈ receivers then .received
  else .blocked

/-- How one iteration of the `for` loop of `recvMsg` ends: `return`; the next
iteration, after the send `c <- m` on the looked-up channel completed
(`some (c, m)`) or after a `continue` (`none`); the goroutine blocked in the
send `c <- m`; or the goroutine stopped by the panic of a send on a closed
channel. -/
inductive LoopStep where
  | exit
  | next (delivery : Option (Chan × resMsg))
  | blocked (c : Chan) (m : resMsg)
  | panicked
  deriving DecidableEq, Repr

/-- One iteration of the loop of `recvMsg`, as a function of the device, of
the reply channels on which a `sendMsg` call is blocked in its `select`
(`receivers`), and of the case that fired.  The reply channels are unbuffered
(`make(chan resMsg)`), so the send `c <- m` is resolved by `chanSend`. -/
def recvMsgStep (j : Codec) (d : RelayDevice) (receivers : List Chan) (ev : Inbound) :
    RelayDevice × LoopStep :=
  match ev with
  | .stop => (d, .exit)
  | .closed => (d, .exit)
  | .msg msg =>
    match j.unmarshal msg resMsg.zero with
    | (_, some _) => (d, .next none)
    | (m, none) =>
      match getMsgChan d m.ReqID with
      | .error _ => (d, .next none)
      | .ok c =>
        match chanSend d.closedChans receivers c with
        | .received => (d, .next (some (c, m)))
        | .blocked => (d, .blocked c m)
        | .panicked => (d, .panicked)

/-! ## Decoding a reply with `encoding/json`

The part of `json.Unmarshal(msg, &m)` that depends on the record `resMsg`,
following the documentation of `encoding/json`: object keys are matched to the
`json` tags of the fields, an exact match first and a case-insensitive match
otherwise; keys that match no field are skipped; a JSON null leaves a string
or integer field as it is; a value of the wrong type for a field is recorded
as an error and decoding goes on; a later member overwrites an earlier one.
Reading the text into members is the argument `parse`. -/

/-- The fields of `resMsg`, in declaration order. -/
inductive Field where
  | ReqID
  | ReqType
  | Error
  | Button
  | Taps
  | Source
  | ID
  | Name
  | Event
  | NotificationState
  | IndoorLocation
  | LatLong
  | Text
  | Battery
  | Value
  deriving DecidableEq, Repr

/-- The `json` tag of each field of `resMsg`. -/
def Field.tag : Field → String
  | .ReqID => "_id"
  | .ReqType => "_type"
  | .Error => "error"
  | .Button => "button"
  | .Taps => "taps"
  | .Source => "source"
  | .ID => "id"
  | .Name => "name"
  | .Event => "event"
  | .NotificationState => "notification_state"
  | .IndoorLocation => "indoor_location"
  | .LatLong => "latlong"
  | .Text => "text"
  | .Battery => "battery"
  | .Value => "value"

/-- All fields of `resMsg`, in declaration order. -/
def Field.all : List Field :=
  [.ReqID, .ReqType, .Error, .Button, .Taps, .Source, .ID, .Name, .Event,
   .NotificationState, .IndoorLocation, .LatLong, .Text, .Battery, .Value]

/-- The case folding `encoding/json` compares keys under: ASCII letters are
folded to upper case.  (The library also folds the two non-ASCII letters that
case-fold to `K` and `S`; neither letter occurs in `_id`.) -/
def foldName (s : String) : String :=
  String.mk (s.data.map Char.toUpper)

/-- The field an object key is decoded into: the field whose tag equals the
key, otherwise the field whose tag equals it under `foldName`, otherwise
none. -/
def findField (key : String) : Option Field :=
  match Field.all.find? (fun f => f.tag == key) with
  | some f => some f
  | none => Field.all.find? (fun f => foldName f.tag == foldName key)

/-- A JSON text after reading: an object with its members in order, or any
other value.  Member values are kept as the dynamic value `interface{}` would
hold. -/
inductive JDoc where
  | object (members : List (String × Dyn))
  | other (v : Dyn)
  deriving DecidableEq, Repr

/-- Storing a JSON value into a `string` field: a string is stored, null is
ignored, anything else is a type error (the Boolean). -/
def storeString (old : String) : Dyn → String × Bool
  | .str s => (s, false)
  | .nil => (old, false)
  | _ => (old, true)

/-- Storing a JSON value into an `int64` field: an integer literal within
range is stored, null is ignored, anything else is a type error. -/
def storeInt64 (old : Int) : Dyn → Int × Bool
  | .number m 0 =>
    if -9223372036854775808 ≤ m ∧ m ≤ 9223372036854775807 then (m, false) else (old, true)
  | .nil => (old, false)
  | _ => (old, true)

/-- Storing a JSON value into one field of `resMsg`.  The field `Error` has
type `interface{}` and takes any value. -/
def storeField (m : resMsg) (f : Field) (v : Dyn) : resMsg × Bool :=
  match f with
  | .ReqID => ({ m with ReqID := (storeString m.ReqID v).1 }, (storeString m.ReqID v).2)
  | .ReqType => ({ m with ReqType := (storeString m.ReqType v).1 }, (storeString m.ReqType v).2)
  | .Error => ({ m with Error := v }, false)
  | .Button => ({ m with Button := (storeString m.Button v).1 }, (storeString m.Button v).2)
  | .Taps => ({ m with Taps := (storeString m.Taps v).1 }, (storeString m.Taps v).2)
  | .Source => ({ m with Source := (storeString m.Source v).1 }, (storeString m.Source v).2)
  | .ID => ({ m with ID := (storeString m.ID v).1 }, (storeString m.ID v).2)
  | .Name => ({ m with Name := (storeString m.Name v).1 }, (storeString m.Name v).2)
  | .Event => ({ m with Event := (storeString m.Event v).1 }, (storeString m.Event v).2)
  | .NotificationState =>
    ({ m with NotificationState := (storeString m.NotificationState v).1 },
      (storeString m.NotificationState v).2)
  | .IndoorLocation =>
    ({ m with IndoorLocation := (storeString m.IndoorLocation v).1 },
      (storeString m.IndoorLocation v).2)
  | .LatLong => ({ m with LatLong := (storeString m.LatLong v).1 }, (storeString m.LatLong v).2)
  | .Text => ({ m with Text := (storeString m.Text v).1 }, (storeString m.Text v).2)
  | .Battery => ({ m with Battery := (storeInt64 m.Battery v).1 }, (storeInt64 m.Battery v).2)
  | .Value => ({ m with Value := (storeString m.Value v).1 }, (storeString m.Value v).2)

/-- Decoding one object member into the record; the Boolean says whether a
type error has been recorded so far. -/
def decodeMember (acc : resMsg × Bool) (kv : String × Dyn) : resMsg × Bool :=
  match findField kv.1 with
  | none => acc
  | some f => ((storeField acc.1 f kv.2).1, acc.2 || (storeField acc.1 f kv.2).2)

/-- Decoding the members of an object into the record, in order. -/
def decodeObject (m : resMsg) (members : List (String × Dyn)) : resMsg × Bool :=
  members.foldl decodeMember (m, false)

/-- The call `json.Unmarshal(msg, &m)` for a `resMsg`: a text that is not JSON
is an error and stores nothing; a top-level null stores nothing; any other
top-level value that is not an object is a type error; an object is decoded
member by member. -/
def jsonUnmarshal (parse : Bytes → Option JDoc) (msg : Bytes) (m : resMsg) :
    resMsg × Option String :=
  match parse msg with
  | none => (m, some "invalid character")
  | some (.other .nil) => (m, none)
  | some (.other _) => (m, some "json: cannot unmarshal into Go value of type relaygo.resMsg")
  | some (.object members) =>
    ((decodeObject m members).1,
      if (decodeObject m members).2 then
        some "json: cannot unmarshal into Go struct field of type relaygo.resMsg"
      else none)

/-- The codec whose `Unmarshal` is `jsonUnmarshal` over the reader `parse`. -/
def Codec.withReader (j : Codec) (parse : Bytes → Option JDoc) : Codec :=
  { j with unmarshal := jsonUnmarshal parse }

/-! ### A reader for flat JSON objects

A reader for the JSON texts the definitions are evaluated on: a string, an
integer, `true`, `false`, `null`, or one object whose members have such
values; ASCII only, without white space and without escapes.  It reads no
other text. -/

/-- Reads the rest of a string after its opening quote (byte 34), up to the
closing quote; a backslash (byte 92), a control byte or a non-ASCII byte is not
read. -/
def readString : List UInt8 → Option (String × List UInt8)
  | [] => none
  | x :: rest =>
    if x = 34 then some ("", rest)
    else if x = 92 ∨ x < 32 ∨ 127 < x then none
    else
      match readString rest with
      | some (str, r) => some (String.mk (Char.ofNat x.toNat :: str.data), r)
      | none => none

/-- Reads a run of decimal digits (bytes 48 to 57) as a natural number; no
digit, or a leading zero before another digit, is not read. -/
def readDigits (b : List UInt8) : Option (Nat × List UInt8) :=
  let ds := b.takeWhile fun x => 48 ≤ x ∧ x ≤ 57
  if ds = [] then none
  else if ds.head? = some 48 ∧ 1 < ds.length then none
  else some (ds.foldl (fun n x => 10 * n + (x.toNat - 48)) 0, b.drop ds.length)

/-- Reads one value: a string, `true`, `false`, `null`, or an integer with an
optional minus sign (byte 45). -/
def readValue : List UInt8 → Option (Dyn × List UInt8)
  | 34 :: rest =>
    match readString rest with
    | some (str, r) => some (.str str, r)
    | none => none
  | 116 :: 114 :: 117 :: 101 :: rest => some (.bool true, rest)
  | 102 :: 97 :: 108 :: 115 :: 101 :: rest => some (.bool false, rest)
  | 110 :: 117 :: 108 :: 108 :: rest => some (.nil, rest)
  | 45 :: rest =>
    match readDigits rest with
    | some (n, r) => some (.number (-(n : Int)) 0, r)
    | none => none
  | rest =>
    match readDigits rest with
    | some (n, r) => some (.number (n : Int) 0, r)
    | none => none

/-- Reads the members of an object after its opening brace, up to and
including the closing brace (byte 125): a quoted key, a colon (byte 58), a
value, then a comma (byte 44) and more members, or the closing brace.  The
first argument bounds the number of members. -/
def readMembers : Nat → List UInt8 → Option (List (String × Dyn) × List UInt8)
  | 0, _ => none
  | fuel + 1, 34 :: rest =>
    match readString rest with
    | some (key, 58 :: r1) =>
      match readValue r1 with
      | some (v, 44 :: r2) =>
        match readMembers fuel r2 with
        | some (ms, r3) => some ((key, v) :: ms, r3)
        | none => none
      | some (v, 125 :: r2) => some ([(key, v)], r2)
      | _ => none
    | _ => none
  | _ + 1, _ => none

/-- Reads a whole frame: the empty object, an object with members (opening
brace, byte 123), or a single value; nothing may follow. -/
def readFlat (b : Bytes) : Option JDoc :=
  match b with
  | [123, 125] => some (.object [])
  | 123 :: rest =>
    match readMembers b.length rest with
    | some (ms, []) => some (.object ms)
    | _ => none
  | _ =>
    match readValue b with
    | some (v, []) => some (.other v)
    | _ => none

/-! ## Construction -/

/-- The device `NewRelayDevice` builds before its handshake. -/
def RelayDevice.fresh : RelayDevice :=
  { sendC := [], stopC := false, msgChanMap := fun _ => none, terminateOnce := false,
    isTerminated := false, ID := "", chanCount := 0, closedChans := [], history := [] }

/-- Method `getID`. -/
def getID (j : Codec) (d : RelayDevice) (reqID : String) (w : WaitOutcome) :
    RelayDevice × Result String :=
  match deviceInfoMsg j reqID "id" false with
  | .error e => (d, .error e)
  | .ok msg =>
    match sendMsg d reqID msg w with
    | (d1, .ok res) => (d1, .ok res.ID)
    | (d1, .error e) => (d1, .error e)
    | (d1, .panic p) => (d1, .panic p)

/-- Function `NewRelayDevice`: the device with its `ID` set from the handshake
(the empty string when the handshake fails) and the error of the handshake. -/
def NewRelayDevice (j : Codec) (reqID : String) (w : WaitOutcome) :
    RelayDevice × Result Unit :=
  match getID j RelayDevice.fresh reqID w with
  | (d, .ok id) => ({ d with ID := id }, .ok ())
  | (d, .error e) => ({ d with ID := "" }, .error e)
  | (d, .panic p) => (d, .panic p)

/-! ## A codec to evaluate with -/

/-- A small codec for evaluating the definitions on concrete inputs.  A request
is encoded as the character codes of its identifier.  The empty frame does not
decode; a frame starting with byte 0 decodes to an object without identifier,
which sets nothing; any other frame decodes to a reply whose identifier is the
frame read as character codes. -/
def demoCodec : Codec :=
  { marshalReq := fun r => r.ReqID.data.map fun ch => UInt8.ofNat ch.toNat
    marshalVibrate := fun r => r.ReqID.data.map fun ch => UInt8.ofNat ch.toNat
    unmarshal := fun b m =>
      match b with
      | [] => (m, some "unexpected end of JSON input")
      | 0 :: _ => (m, none)
      | x :: xs =>
        ({ m with ReqID := String.mk ((x :: xs).map fun y => Char.ofNat y.toNat) }, none) }

/-- A reply with identifier `a1` and no error. -/
def demoReply : resMsg :=
  { resMsg.zero with ReqID := "a1" }

/-- A reply with identifier `a1` whose error field holds the number 42. -/
def numberErrorReply : resMsg :=
  { resMsg.zero with ReqID := "a1", Error := .number 42 0 }

/-- A live device with one pending entry, `a1` mapped to channel 3. -/
def demoDevice : RelayDevice :=
  setMsgChan RelayDevice.fresh "a1" 3

/-- The codec that decodes frames with `jsonUnmarshal` over `readFlat`. -/
def flatCodec : Codec :=
  demoCodec.withReader readFlat

/-- The bytes of the JSON text `{"_id":"a1"}`. -/
def idFrame : Bytes :=
  [123, 34, 95, 105, 100, 34, 58, 34, 97, 49, 34, 125]

/-- The bytes of the JSON text `{"_ID":"a1"}`: the key is `_ID`, in upper
case. -/
def upperIdFrame : Bytes :=
  [123, 34, 95, 73, 68, 34, 58, 34, 97, 49, 34, 125]

/-- The bytes of the JSON text `{"battery":87}`: an object without
identifier. -/
def batteryFrame : Bytes :=
  [123, 34, 98, 97, 116, 116, 101, 114, 121, 34, 58, 56, 55, 125]

/-- The bytes of the text `{"_id"`, which is not JSON. -/
def brokenFrame : Bytes :=
  [123, 34, 95, 105, 100, 34]

/-! ## The race between the dispatch loop and one waiting call

A small-step model of two goroutines over the same device: the dispatch loop
inside one iteration of `recvMsg`, and one `sendMsg` call that has registered
its reply channel and waits in its `select`.  The atomic steps are the table
operations (each runs under the mutex) and the channel operations. -/

namespace Race

/-- Where the dispatch goroutine is: at the top of its loop, at the send
`c <- m` holding the channel `getMsgChan` returned, or stopped by the panic of
a send on a closed channel. -/
inductive Dispatch where
  | idle
  | sending (c : Chan) (m : resMsg)
  | panicked
  deriving DecidableEq, Repr

/-- Where the waiting `sendMsg` call is: blocked in its `select`; past the
`select` with a reply received; past `delMsgChan` with `close(resC)` still to
run; or returned. -/
inductive Waiter where
  | selecting
  | received (res : resMsg)
  | removed
  | returned
  deriving DecidableEq, Repr

/-- The two goroutines, the device they share, and the identifier and reply
channel of the waiting call. -/
structure Config where
  dev : RelayDevice
  reqID : String
  resC : Chan
  dispatch : Dispatch
  waiter : Waiter

/-- The atomic steps.  `lookup m`: the dispatch loop has decoded `m` and calls
`getMsgChan(m.ReqID)`.  `deliver`: the dispatch loop executes `c <- m`.
`remove`: the waiting call runs `delMsgChan(reqID)`, after a reply or because
the timeout or stop case fired.  `close`: the waiting call runs `close(resC)`. -/
inductive Action where
  | lookup (m : resMsg)
  | deliver
  | remove
  | close
  deriving DecidableEq, Repr

/-- The configuration `sendMsg(reqID, msg)` is in when it reaches its `select`
on a live device `d`: channel made and registered, payload sent. -/
def start (d : RelayDevice) (reqID : String) (msg : Bytes) : Config :=
  let r := makeChan d
  let d2 := setMsgChan r.2 reqID r.1
  { dev := { d2 with sendC := d2.sendC ++ [msg] }, reqID := reqID, resC := r.1,
    dispatch := .idle, waiter := .selecting }

/-- One atomic step; `none` when the step cannot run.  A send on a closed
channel panics.  A send on an open unbuffered channel completes only with a
goroutine receiving from it, which here is the waiting call while it is in its
`select`; otherwise the sender stays blocked. -/
def step (s : Config) : Action → Option Config
  | .lookup m =>
    match s.dispatch with
    | .idle =>
      match getMsgChan s.dev m.ReqID with
      | .ok c => some { s with dispatch := .sending c m }
      | .error _ => some s
    | _ => none
  | .deliver =>
    match s.dispatch with
    | .sending c m =>
      if c ∈ s.dev.closedChans then
        some { s with dispatch := .panicked }
      else
        match s.waiter with
        | .selecting =>
          if c = s.resC then some { s with dispatch := .idle, waiter := .received m }
          else none
        | _ => none
    | _ => none
  | .remove =>
    match s.waiter with
    | .selecting => some { s with dev := delMsgChan s.dev s.reqID, waiter := .removed }
    | .received _ => some { s with dev := delMsgChan s.dev s.reqID, waiter := .removed }
    | _ => none
  | .close =>
    match s.waiter with
    | .removed => some { s with dev := closeChan s.dev s.resC, waiter := .returned }
    | _ => none

/-- Runs a schedule, a list of atomic steps, from a configuration. -/
def run (s : Config) : List Action → Option Config
  | [] => some s
  | a :: as =>
    match step s a with
    | some s1 => run s1 as
    | none => none

/-- The dispatch loop is at its send on a channel that the table no longer
maps the identifier of the reply to. -/
def staleSend (s : Config) : Bool :=
  match s.dispatch with
  | .sending c m =>
    match getMsgChan s.dev m.ReqID with
    | .ok c1 => c1 != c
    | .error _ => true
  | _ => false

/-- The dispatch loop is at its send, the channel is open, and the only
goroutine that ever receives from it has left its `select`. -/
def blockedSend (s : Config) : Bool :=
  match s.dispatch with
  | .sending c _ =>
    match s.waiter with
    | .selecting => false
    | _ => !(decide (c ∈ s.dev.closedChans))
  | _ => false

/-- The reply channels on which a goroutine is blocked in a receive: the
channel of the waiting call while it is in its `select`. -/
def receivers (s : Config) : List Chan :=
  match s.waiter with
  | .selecting => [s.resC]
  | _ => []

end Race

/-! ## Reachable devices -/

/-- The flag `isTerminated` is assigned only inside `terminate`, which runs
only under the `sync.Once`: a device whose flag is set has used its
`sync.Once`. -/
def FlagUnderOnce (d : RelayDevice) : Prop :=
  d.isTerminated = true → d.terminateOnce = true

/-- Every registered reply channel was made by an earlier `make` and is not
closed: `sendMsg` registers a channel right after making it and closes it only
after deleting its entry. -/
def SlotsOpen (d : RelayDevice) : Prop :=
  ∀ k c, d.msgChanMap k = some c → c < d.chanCount ∧ c ∉ d.closedChans

/-! ## Theorems -/

/-- C1: on a terminated session `sendMsg` returns an error and no reply, and
the whole device state, in particular the pending-request table and the
outbound queue, is what it was before the call. -/
theorem sendMsg_terminated (d : RelayDevice) (reqID : String) (msg : Bytes)
    (w : WaitOutcome) (h : d.isTerminated = true) :
    (∃ e, (sendMsg d reqID msg w).2 = .error e) ∧
    (∀ res, (sendMsg d reqID msg w).2 ≠ .ok res) ∧
    (sendMsg d reqID msg w).1 = d ∧
    (sendMsg d reqID msg w).1.msgChanMap = d.msgChanMap ∧
    (sendMsg d reqID msg w).1.sendC = d.sendC := by
  have hs : sendMsg d reqID msg w = (d, .error "writing to a terminated relay device") := by
    simp [sendMsg, IsTerminated, h]
  rw [hs]
  refine ⟨⟨_, rfl⟩, ?_, rfl, rfl, rfl⟩
  intro res hres
  cases hres

/-- Witness for `sendMsg_terminated`: the device `NewRelayDevice` starts
from, with the terminated flag set. -/
theorem sendMsg_terminated_witness :
    (∃ e, (sendMsg { RelayDevice.fresh with isTerminated := true } "a1" [1, 2] .timeout).2
      = .error e) ∧
    (∀ res, (sendMsg { RelayDevice.fresh with isTerminated := true } "a1" [1, 2] .timeout).2
      ≠ .ok res) ∧
    (sendMsg { RelayDevice.fresh with isTerminated := true } "a1" [1, 2] .timeout).1
      = { RelayDevice.fresh with isTerminated := true } ∧
    (sendMsg { RelayDevice.fresh with isTerminated := true } "a1" [1, 2] .timeout).1.msgChanMap
      = ({ RelayDevice.fresh with isTerminated := true } : RelayDevice).msgChanMap ∧
    (sendMsg { RelayDevice.fresh with isTerminated := true } "a1" [1, 2] .timeout).1.sendC
      = ({ RelayDevice.fresh with isTerminated := true } : RelayDevice).sendC :=
  sendMsg_terminated { RelayDevice.fresh with isTerminated := true } "a1" [1, 2] .timeout rfl

/-- The state `sendMsg` returns on a live device does not depend on which case
of its `select` fired: channel made, entry registered and removed, payload
sent, channel closed. -/
theorem sendMsg_state (d : RelayDevice) (reqID : String) (msg : Bytes) (w : WaitOutcome)
    (h : d.isTerminated = false) :
    (sendMsg d reqID msg w).1 =
      closeChan (delMsgChan
        { setMsgChan (makeChan d).2 reqID (makeChan d).1 with sendC := d.sendC ++ [msg] }
        reqID) (makeChan d).1 := by
  cases w with
  | reply res =>
    simp only [sendMsg, IsTerminated, h, Bool.false_eq_true, ↓reduceIte]
    split
    · split <;> rfl
    · rfl
  | timeout =>
    simp only [sendMsg, IsTerminated, h, Bool.false_eq_true, ↓reduceIte]
    rfl
  | stop =>
    simp only [sendMsg, IsTerminated, h, Bool.false_eq_true, ↓reduceIte]
    rfl

/-- C3: on a live device, whichever case of the `select` fires, the table
after `sendMsg(r, payload)` is the table before with key `r` deleted: `r` has
no entry and every other identifier maps to what it mapped to before. -/
theorem sendMsg_table (d : RelayDevice) (r : String) (payload : Bytes) (w : WaitOutcome)
    (h : d.isTerminated = false) :
    (sendMsg d r payload w).1.msgChanMap = (delMsgChan d r).msgChanMap ∧
    (sendMsg d r payload w).1.msgChanMap r = none ∧
    (∀ k, k ≠ r → (sendMsg d r payload w).1.msgChanMap k = d.msgChanMap k) := by
  rw [sendMsg_state d r payload w h]
  refine ⟨?_, ?_, ?_⟩
  · funext k
    by_cases hk : k = r <;> simp [closeChan, delMsgChan, setMsgChan, makeChan, hk]
  · simp [closeChan, delMsgChan]
  · intro k hk
    simp [closeChan, delMsgChan, setMsgChan, makeChan, hk]

/-- Witness for `sendMsg_table`: a live device with a pending entry under
another identifier, the wait ending by timeout. -/
theorem sendMsg_table_witness :
    (sendMsg (setMsgChan RelayDevice.fresh "b2" 7) "a1" [1] .timeout).1.msgChanMap
      = (delMsgChan (setMsgChan RelayDevice.fresh "b2" 7) "a1").msgChanMap ∧
    (sendMsg (setMsgChan RelayDevice.fresh "b2" 7) "a1" [1] .timeout).1.msgChanMap "a1"
      = none ∧
    (∀ k, k ≠ "a1" →
      (sendMsg (setMsgChan RelayDevice.fresh "b2" 7) "a1" [1] .timeout).1.msgChanMap k
        = (setMsgChan RelayDevice.fresh "b2" 7).msgChanMap k) :=
  sendMsg_table (setMsgChan RelayDevice.fresh "b2" 7) "a1" [1] .timeout rfl

/-- C8: the stop case and the timeout case of the `select` in `sendMsg`
return the same thing: no reply and the error with message
"request timed out", and they leave the same device state.  The timeout
constant is 60 seconds. -/
theorem sendMsg_stop_eq_timeout (d : RelayDevice) (reqID : String) (msg : Bytes) :
    sendMsg d reqID msg .stop = sendMsg d reqID msg .timeout ∧
    (d.isTerminated = false →
      (sendMsg d reqID msg .stop).2 = .error "request timed out" ∧
      (sendMsg d reqID msg .timeout).2 = .error "request timed out") ∧
    RES_TIMEOUT = 60 := by
  refine ⟨?_, ?_, rfl⟩
  · simp [sendMsg]
  · intro h
    simp [sendMsg, IsTerminated, h]

/-! ### The error field of a reply -/

/-- A reply whose error field holds a non-empty string makes `sendMsg` return
that string as error and no reply. -/
theorem sendMsg_reply_string_error (d : RelayDevice) (reqID : String) (msg : Bytes)
    (res : resMsg) (e : String) (h : d.isTerminated = false) (he : res.Error = .str e)
    (hne : e ≠ "") :
    (sendMsg d reqID msg (.reply res)).2 = .error e := by
  simp [sendMsg, IsTerminated, h, he, Dyn.neNil, Dyn.neString, Dyn.assertString, hne]

/-- A reply whose error field is nil or the empty string makes `sendMsg`
return the reply and no error. -/
theorem sendMsg_reply_no_error (d : RelayDevice) (reqID : String) (msg : Bytes)
    (res : resMsg) (h : d.isTerminated = false)
    (he : res.Error = .nil ∨ res.Error = .str "") :
    (sendMsg d reqID msg (.reply res)).2 = .ok res := by
  rcases he with he | he <;>
    simp [sendMsg, IsTerminated, h, he, Dyn.neNil, Dyn.neString]

/-- A reply whose error field holds a value that is neither nil nor a string
makes `sendMsg` panic at the type assertion. -/
theorem sendMsg_reply_other_error (d : RelayDevice) (reqID : String) (msg : Bytes)
    (res : resMsg) (h : d.isTerminated = false)
    (hnil : res.Error ≠ .nil) (hstr : ∀ e, res.Error ≠ .str e) :
    (sendMsg d reqID msg (.reply res)).2
      = .panic "interface conversion: interface is not string" := by
  cases hE : res.Error with
  | nil => exact absurd hE hnil
  | str e => exact absurd hE (hstr e)
  | bool b => simp [sendMsg, IsTerminated, h, hE, Dyn.neNil, Dyn.neString, Dyn.assertString]
  | number a b =>
    simp [sendMsg, IsTerminated, h, hE, Dyn.neNil, Dyn.neString, Dyn.assertString]
  | slice => simp [sendMsg, IsTerminated, h, hE, Dyn.neNil, Dyn.neString, Dyn.assertString]
  | object => simp [sendMsg, IsTerminated, h, hE, Dyn.neNil, Dyn.neString, Dyn.assertString]

/-- C2: a reply whose error field is present, non-empty and not a string (the
number 42) does not make `sendMsg` return a remote-failure error: the call
panics at the type assertion, so it returns neither an error nor a reply. -/
theorem sendMsg_number_error_panics :
    (sendMsg RelayDevice.fresh "a1" [1] (.reply numberErrorReply)).2
      = .panic "interface conversion: interface is not string" ∧
    (∀ e, (sendMsg RelayDevice.fresh "a1" [1] (.reply numberErrorReply)).2 ≠ .error e) := by
  have h : (sendMsg RelayDevice.fresh "a1" [1] (.reply numberErrorReply)).2
      = .panic "interface conversion: interface is not string" := by
    apply sendMsg_reply_other_error
    · rfl
    · simp [numberErrorReply]
    · simp [numberErrorReply]
  refine ⟨h, ?_⟩
  intro e he
  rw [h] at he
  cases he

/-! ### The dispatch loop -/

/-- An iteration of `recvMsg` never changes the device. -/
theorem recvMsgStep_device (j : Codec) (d : RelayDevice) (receivers : List Chan)
    (ev : Inbound) : (recvMsgStep j d receivers ev).1 = d := by
  unfold recvMsgStep
  split
  · rfl
  · rfl
  · split
    · rfl
    · split
      · rfl
      · split <;> rfl

/-- A payload that decodes to a reply `m` is routed by `m.ReqID` alone.  If the
table maps it to an open channel on which the registering call is receiving,
the reply is delivered on that channel and the loop goes on; if it has no
entry, nothing is sent and the loop goes on; whatever the iteration delivers,
it delivers the decoded reply on the channel registered under `m.ReqID`. -/
theorem recvMsgStep_routes_to_receiver (j : Codec) (d : RelayDevice)
    (receivers : List Chan) (payload : Bytes) (m : resMsg)
    (h : j.unmarshal payload resMsg.zero = (m, none)) :
    (∀ c, d.msgChanMap m.ReqID = some c → c ∉ d.closedChans → c ∈ receivers →
      recvMsgStep j d receivers (.msg payload) = (d, .next (some (c, m)))) ∧
    (d.msgChanMap m.ReqID = none →
      recvMsgStep j d receivers (.msg payload) = (d, .next none)) ∧
    (∀ c1 m1, (recvMsgStep j d receivers (.msg payload)).2 = .next (some (c1, m1)) →
      d.msgChanMap m.ReqID = some c1 ∧ m1 = m) := by
  refine ⟨?_, ?_, ?_⟩
  · intro c hc hopen hrecv
    simp [recvMsgStep, h, getMsgChan, hc, chanSend, hopen, hrecv]
  · intro hn
    simp [recvMsgStep, h, getMsgChan, hn]
  · intro c1 m1
    cases hc : d.msgChanMap m.ReqID with
    | none => simp [recvMsgStep, h, getMsgChan, hc]
    | some c =>
      by_cases hcl : c ∈ d.closedChans
      · simp [recvMsgStep, h, getMsgChan, hc, chanSend, hcl]
      · by_cases hr : c ∈ receivers
        · simp only [recvMsgStep, h, getMsgChan, hc, chanSend, hcl, hr, if_true, if_false]
          intro heq
          simp only [LoopStep.next.injEq, Option.some.injEq, Prod.mk.injEq] at heq
          exact ⟨by rw [heq.1], heq.2.symm⟩
        · simp [recvMsgStep, h, getMsgChan, hc, chanSend, hcl, hr]

/-- C4: the frame `{"_id":"a1"}` arrives while the table maps `a1` to the open
channel 3 and the call that registered it has left its `select` (its timeout
case fired, `delMsgChan` not yet run), so no goroutine receives on channel 3.
The iteration finds the entry, but the reply is not delivered and the loop
does not go on to the next message: the dispatch goroutine is blocked in the
send, and once the registering call has run `delMsgChan` and `close(resC)` the
pending send on channel 3 panics.  With the registering call still receiving,
the same frame is delivered. -/
theorem recvMsgStep_blocks_without_receiver :
    flatCodec.unmarshal idFrame resMsg.zero = (demoReply, none) ∧
    demoDevice.msgChanMap "a1" = some 3 ∧
    demoDevice.closedChans = [] ∧
    recvMsgStep flatCodec demoDevice [] (.msg idFrame) = (demoDevice, .blocked 3 demoReply) ∧
    chanSend (closeChan (delMsgChan demoDevice "a1") 3).closedChans [] 3 = .panicked ∧
    recvMsgStep flatCodec demoDevice [3] (.msg idFrame)
      = (demoDevice, .next (some (3, demoReply))) := by
  have hu : flatCodec.unmarshal idFrame resMsg.zero = (demoReply, none) := by decide
  have hm : demoDevice.msgChanMap "a1" = some 3 := by decide
  refine ⟨hu, hm, rfl, ?_, by decide, ?_⟩
  · simp [recvMsgStep, hu, getMsgChan, demoReply, hm, chanSend, demoDevice, setMsgChan,
      RelayDevice.fresh]
  · simp [recvMsgStep, hu, getMsgChan, demoReply, hm, chanSend, demoDevice, setMsgChan,
      RelayDevice.fresh]

/-- A key that is decoded into the field `ReqID` equals `_id` under
`foldName`. -/
theorem findField_ReqID (key : String) (h : findField key = some .ReqID) :
    foldName key = foldName "_id" := by
  unfold findField at h
  split at h
  · rename_i f hf
    have hp := List.find?_some hf
    simp only [Option.some.injEq] at h
    subst h
    have hk : "_id" = key := by simpa [Field.tag] using hp
    rw [hk]
  · have hp := List.find?_some h
    have hk : foldName "_id" = foldName key := by simpa [Field.tag] using hp
    exact hk.symm

/-- Storing into a field other than `ReqID` leaves `ReqID` as it is. -/
theorem storeField_keeps_ReqID (m : resMsg) (f : Field) (v : Dyn) (h : f ≠ .ReqID) :
    (storeField m f v).1.ReqID = m.ReqID := by
  cases f <;> first | exact absurd rfl h | rfl

/-- Decoding an object none of whose keys equals `_id` under `foldName`
leaves the identifier of the record as it is. -/
theorem decodeObject_keeps_ReqID (members : List (String × Dyn)) (acc : resMsg × Bool)
    (h : ∀ kv ∈ members, foldName kv.1 ≠ foldName "_id") :
    (members.foldl decodeMember acc).1.ReqID = acc.1.ReqID := by
  induction members generalizing acc with
  | nil => rfl
  | cons kv rest ih =>
    have hrest : ∀ kv1 ∈ rest, foldName kv1.1 ≠ foldName "_id" :=
      fun kv1 hmem => h kv1 (List.mem_cons_of_mem _ hmem)
    have hkv : foldName kv.1 ≠ foldName "_id" := h kv (List.mem_cons_self _ _)
    rw [List.foldl_cons, ih _ hrest]
    unfold decodeMember
    cases hf : findField kv.1 with
    | none => rfl
    | some f =>
      have hne : f ≠ .ReqID := by
        intro hf1
        rw [hf1] at hf
        exact hkv (findField_ReqID kv.1 hf)
      exact storeField_keeps_ReqID acc.1 f kv.2 hne

/-- C5, as amended: on a table whose identifiers are all non-empty, a payload
for which `json.Unmarshal` returns an error, or that is not an object, or that
is an object none of whose keys equals `_id` up to the case of its letters, is
dropped: nothing is sent on any reply channel, the device is unchanged, and
the loop goes to its next iteration, whichever calls are receiving. -/
theorem recvMsgStep_drops_unidentified (j : Codec) (parse : Bytes → Option JDoc)
    (d : RelayDevice) (receivers : List Chan) (payload : Bytes)
    (hkeys : ∀ k c, d.msgChanMap k = some c → k ≠ "")
    (hbad : ((j.withReader parse).unmarshal payload resMsg.zero).2 ≠ none ∨
      (∃ v, parse payload = some (.other v)) ∨
      (∃ members, parse payload = some (.object members) ∧
        ∀ kv ∈ members, foldName kv.1 ≠ foldName "_id")) :
    recvMsgStep (j.withReader parse) d receivers (.msg payload) = (d, .next none) := by
  have hempty : d.msgChanMap "" = none := by
    cases hc : d.msgChanMap "" with
    | none => rfl
    | some c => exact absurd rfl (hkeys "" c hc)
  have hdrop : ∀ m e, (j.withReader parse).unmarshal payload resMsg.zero = (m, e) →
      (e ≠ none ∨ m.ReqID = "") →
      recvMsgStep (j.withReader parse) d receivers (.msg payload) = (d, .next none) := by
    intro m e hu hme
    cases e with
    | some e => simp [recvMsgStep, hu]
    | none =>
      have hid : m.ReqID = "" := by
        rcases hme with hb | hb
        · exact absurd rfl hb
        · exact hb
      simp [recvMsgStep, hu, getMsgChan, hid, hempty]
  rcases hbad with herr | ⟨v, hv⟩ | ⟨members, hp, hno⟩
  · exact hdrop _ _ rfl (Or.inl herr)
  · refine hdrop ((j.withReader parse).unmarshal payload resMsg.zero).1
      ((j.withReader parse).unmarshal payload resMsg.zero).2 rfl ?_
    cases v <;> simp [Codec.withReader, jsonUnmarshal, hv, resMsg.zero]
  · refine hdrop ((j.withReader parse).unmarshal payload resMsg.zero).1
      ((j.withReader parse).unmarshal payload resMsg.zero).2 rfl (Or.inr ?_)
    simp only [Codec.withReader, jsonUnmarshal, hp]
    exact decodeObject_keeps_ReqID members (resMsg.zero, false) hno

/-- Witness for `recvMsgStep_drops_unidentified`: a frame that is not JSON and
the frame `{"battery":87}`, on a device whose only pending identifier is `a1`
and whose registering call is receiving. -/
theorem recvMsgStep_drops_unidentified_witness :
    recvMsgStep flatCodec demoDevice [3] (.msg brokenFrame) = (demoDevice, .next none) ∧
    recvMsgStep flatCodec demoDevice [3] (.msg batteryFrame) = (demoDevice, .next none) :=
  ⟨recvMsgStep_drops_unidentified demoCodec readFlat demoDevice [3] brokenFrame
      (by
        intro k c h hk
        subst hk
        simp [demoDevice, setMsgChan, RelayDevice.fresh] at h)
      (Or.inl (by decide)),
    recvMsgStep_drops_unidentified demoCodec readFlat demoDevice [3] batteryFrame
      (by
        intro k c h hk
        subst hk
        simp [demoDevice, setMsgChan, RelayDevice.fresh] at h)
      (Or.inr (Or.inr ⟨[("battery", .number 87 0)], by decide, by decide⟩))⟩

/-- Counterexample to C5 as stated: the table has one identifier, `a1`, which
is non-empty; the payload `{"_ID":"a1"}` is an object whose only key is `_ID`,
so it has no `_id` key; `json.Unmarshal` matches `_ID` to the field tagged
`_id`, and the iteration delivers the reply on channel 3, the channel of
`a1`. -/
theorem upperIdFrame_is_delivered :
    (∀ k c, demoDevice.msgChanMap k = some c → k ≠ "") ∧
    readFlat upperIdFrame = some (.object [("_ID", .str "a1")]) ∧
    (∀ kv ∈ [("_ID", Dyn.str "a1")], kv.1 ≠ "_id") ∧
    recvMsgStep flatCodec demoDevice [3] (.msg upperIdFrame)
      = (demoDevice, .next (some (3, demoReply))) ∧
    recvMsgStep flatCodec demoDevice [3] (.msg upperIdFrame) ≠ (demoDevice, .next none) := by
  have hu : flatCodec.unmarshal upperIdFrame resMsg.zero = (demoReply, none) := by decide
  have hm : demoDevice.msgChanMap "a1" = some 3 := by decide
  have hstep : recvMsgStep flatCodec demoDevice [3] (.msg upperIdFrame)
      = (demoDevice, .next (some (3, demoReply))) := by
    simp [recvMsgStep, hu, getMsgChan, demoReply, hm, chanSend, demoDevice, setMsgChan,
      RelayDevice.fresh]
  refine ⟨?_, by decide, by decide, hstep, ?_⟩
  · intro k c h hk
    subst hk
    simp [demoDevice, setMsgChan, RelayDevice.fresh] at h
  · rw [hstep]
    intro heq
    simp at heq

/-! ### Builders -/

/-- C10: `ledMsg(id, effect, args)` returns exactly what `vibrateMsg(id)`
returns, the encoding of the record with type tag `wf_api_vibrate_request` and
pattern 100, 500, 500, 500, 500, 500, whatever `effect` and `args` are; so
`LedStatic` and `LedOff` behave as `Vibrate` for the same identifier. -/
theorem ledMsg_eq_vibrateMsg (j : Codec) (id : String) (effect : String) (args : LedArgs) :
    ledMsg j id effect args = vibrateMsg j id ∧
    ledMsg j id effect args = .ok (j.marshalVibrate
      { ReqID := id, ReqType := "wf_api_vibrate_request",
        Pattern := [100, 500, 500, 500, 500, 500] }) ∧
    (∀ (d : RelayDevice) (w : WaitOutcome),
      LedStatic j d id w = Vibrate j d id w ∧ LedOff j d id w = Vibrate j d id w) :=
  ⟨rfl, rfl, fun _ _ => ⟨rfl, rfl⟩⟩

/-! ### Termination -/

/-- A `Terminate` call on a device whose `sync.Once` is done changes nothing. -/
theorem Terminate_done (j : Codec) (d : RelayDevice) (reqID : String) (w : WaitOutcome)
    (h : d.terminateOnce = true) : Terminate j d reqID w = (d, .ok ()) := by
  simp [Terminate, h]

/-- After any `Terminate` call the `sync.Once` is done. -/
theorem Terminate_marks_once (j : Codec) (d : RelayDevice) (reqID : String) (w : WaitOutcome) :
    (Terminate j d reqID w).1.terminateOnce = true := by
  unfold Terminate
  split
  · assumption
  · rfl

/-- Any number of `Terminate` calls on a device whose `sync.Once` is done
changes nothing. -/
theorem TerminateAll_done (j : Codec) (d : RelayDevice) (cs : List (String × WaitOutcome))
    (h : d.terminateOnce = true) : TerminateAll j d cs = d := by
  induction cs with
  | nil => rfl
  | cons c cs ih => simp [TerminateAll, Terminate_done j d c.1 c.2 h, ih]

/-- The state `terminate` leaves on a live device: the state `sendMsg` leaves,
then the flag when `sendMsg` did not panic, then the close of the stop
channel. -/
theorem terminate_state (j : Codec) (d : RelayDevice) (reqID : String) (w : WaitOutcome)
    (hLive : d.isTerminated = false) :
    (terminate j d reqID w).1.sendC
      = d.sendC ++ [j.marshalReq
          { ReqID := reqID, ReqType := "wf_api_terminate_request", Query := "",
            Refresh := false, Name := "" }] ∧
    (terminate j d reqID w).1.stopC = true ∧
    (terminate j d reqID w).1.history.count .closeStop = d.history.count .closeStop + 1 := by
  have hst := sendMsg_state d reqID (j.marshalReq
      { ReqID := reqID, ReqType := "wf_api_terminate_request", Query := "",
        Refresh := false, Name := "" }) w hLive
  unfold terminate terminateMsg
  simp only []
  rcases hres : sendMsg d reqID (j.marshalReq
      { ReqID := reqID, ReqType := "wf_api_terminate_request", Query := "",
        Refresh := false, Name := "" }) w with ⟨d1, r⟩
  rw [hres] at hst
  simp only [] at hst
  subst hst
  cases r <;>
    by_cases hs : d.stopC = true <;>
    simp [runDeferredClose, closeStopC, closeChan, delMsgChan, setMsgChan, makeChan, hs,
      List.count_append]

/-- C6: on a live device whose `sync.Once` is unused, n calls of `Terminate`
in sequence, n at least 1, run the teardown once: the state after the n-th
call is the state after the first call, the outbound queue has gained exactly
one payload, the terminate request of the first call, the stop channel is
closed, and `close(d.stopC)` has been executed exactly once. -/
theorem Terminate_runs_once (j : Codec) (d : RelayDevice) (c : String × WaitOutcome)
    (cs : List (String × WaitOutcome))
    (hOnce : d.terminateOnce = false) (hLive : d.isTerminated = false) :
    TerminateAll j d (c :: cs) = (Terminate j d c.1 c.2).1 ∧
    terminateMsg j c.1 = .ok (j.marshalReq
      { ReqID := c.1, ReqType := "wf_api_terminate_request", Query := "",
        Refresh := false, Name := "" }) ∧
    (TerminateAll j d (c :: cs)).sendC
      = d.sendC ++ [j.marshalReq
          { ReqID := c.1, ReqType := "wf_api_terminate_request", Query := "",
            Refresh := false, Name := "" }] ∧
    (TerminateAll j d (c :: cs)).stopC = true ∧
    (TerminateAll j d (c :: cs)).history.count .closeStop
      = d.history.count .closeStop + 1 := by
  have hall : TerminateAll j d (c :: cs) = (Terminate j d c.1 c.2).1 := by
    simp only [TerminateAll]
    exact TerminateAll_done j _ cs (Terminate_marks_once j d c.1 c.2)
  have hT : (Terminate j d c.1 c.2).1 = { (terminate j d c.1 c.2).1 with terminateOnce := true } := by
    simp [Terminate, hOnce]
  obtain ⟨h1, h2, h3⟩ := terminate_state j d c.1 c.2 hLive
  refine ⟨hall, rfl, ?_, ?_, ?_⟩
  · rw [hall, hT]; exact h1
  · rw [hall, hT]; exact h2
  · rw [hall, hT]; exact h3

/-- Witness for `Terminate_runs_once`: three calls on the device
`NewRelayDevice` starts from, the first wait ending by timeout. -/
theorem Terminate_runs_once_witness :
    (TerminateAll demoCodec RelayDevice.fresh
        [("a1", .timeout), ("b2", .timeout), ("c3", .reply demoReply)]).sendC = [[97, 49]] ∧
    (TerminateAll demoCodec RelayDevice.fresh
        [("a1", .timeout), ("b2", .timeout), ("c3", .reply demoReply)]).history.count .closeStop
      = 1 :=
  ⟨(Terminate_runs_once demoCodec RelayDevice.fresh ("a1", .timeout)
      [("b2", .timeout), ("c3", .reply demoReply)] rfl rfl).2.2.1,
   (Terminate_runs_once demoCodec RelayDevice.fresh ("a1", .timeout)
      [("b2", .timeout), ("c3", .reply demoReply)] rfl rfl).2.2.2.2⟩

/-- When the wait of the terminate request ends without a panic (timeout,
stop, or a reply whose error field is nil or a string), `Terminate` on a live
device with unused `sync.Once` and open stop channel sets the flag and then
closes the stop channel. -/
theorem Terminate_marks_then_closes (j : Codec) (d : RelayDevice) (reqID : String)
    (w : WaitOutcome) (hOnce : d.terminateOnce = false) (hLive : d.isTerminated = false)
    (hStop : d.stopC = false)
    (hw : ∀ res, w = .reply res → res.Error = .nil ∨ ∃ e, res.Error = .str e) :
    (Terminate j d reqID w).2 = .ok () ∧
    IsTerminated (Terminate j d reqID w).1 = true ∧
    (Terminate j d reqID w).1.stopC = true ∧
    (Terminate j d reqID w).1.history = d.history ++ [.markedTerminated, .closeStop] := by
  cases w with
  | timeout =>
    simp [Terminate, hOnce, terminate, terminateMsg, sendMsg, IsTerminated, hLive,
      runDeferredClose, closeStopC, closeChan, delMsgChan, setMsgChan, makeChan, hStop]
  | stop =>
    simp [Terminate, hOnce, terminate, terminateMsg, sendMsg, IsTerminated, hLive,
      runDeferredClose, closeStopC, closeChan, delMsgChan, setMsgChan, makeChan, hStop]
  | reply res =>
    rcases hw res rfl with he | ⟨e, he⟩
    · simp [Terminate, hOnce, terminate, terminateMsg, sendMsg, IsTerminated, hLive,
        runDeferredClose, closeStopC, closeChan, delMsgChan, setMsgChan, makeChan, hStop, he,
        Dyn.neNil]
    · by_cases hempty : e = ""
      · simp [Terminate, hOnce, terminate, terminateMsg, sendMsg, IsTerminated, hLive,
          runDeferredClose, closeStopC, closeChan, delMsgChan, setMsgChan, makeChan, hStop, he,
          Dyn.neNil, Dyn.neString, hempty]
      · simp [Terminate, hOnce, terminate, terminateMsg, sendMsg, IsTerminated, hLive,
          runDeferredClose, closeStopC, closeChan, delMsgChan, setMsgChan, makeChan, hStop, he,
          Dyn.neNil, Dyn.neString, Dyn.assertString, hempty]

/-- C7: when the peer answers the terminate request with a reply whose error
field holds the number 42, `Terminate` on the live device `NewRelayDevice`
starts from panics: the stop channel is closed by the deferred close, but the
flag was never set, so `IsTerminated` still returns false. -/
theorem Terminate_number_error_leaves_live :
    (Terminate demoCodec RelayDevice.fresh "a1" (.reply numberErrorReply)).2
      = .panic "interface conversion: interface is not string" ∧
    IsTerminated (Terminate demoCodec RelayDevice.fresh "a1" (.reply numberErrorReply)).1
      = false ∧
    (Terminate demoCodec RelayDevice.fresh "a1" (.reply numberErrorReply)).1.stopC = true ∧
    (Terminate demoCodec RelayDevice.fresh "a1" (.reply numberErrorReply)).1.history
      = [.closeStop] := by
  refine ⟨?_, ?_, ?_, ?_⟩ <;> rfl

/-! ### The race between dispatch and a waiting call -/

/-- C9: from the configuration in which `sendMsg("a1", ...)` waits in its
`select`, the schedule lookup, remove reaches a configuration where the
dispatch loop is at its send on a channel whose entry is gone, the channel is
open, the waiting call has left its `select`, and the send cannot complete;
the schedule lookup, remove, close, deliver ends with the dispatch loop
sending on the closed channel, which panics. -/
theorem race_send_on_closed_channel :
    (∃ s, Race.run (Race.start RelayDevice.fresh "a1" [1]) [.lookup demoReply, .remove] = some s ∧
      s.dispatch = .sending 0 demoReply ∧
      s.dev.msgChanMap "a1" = none ∧
      Race.staleSend s = true ∧
      Race.blockedSend s = true ∧
      (Race.step s .deliver).isNone = true) ∧
    (∃ s, Race.run (Race.start RelayDevice.fresh "a1" [1])
        [.lookup demoReply, .remove, .close, .deliver] = some s ∧
      s.dev.closedChans = [0] ∧
      s.dispatch = .panicked) := by
  refine ⟨⟨_, rfl, ?_, ?_, ?_, ?_, ?_⟩, ⟨_, rfl, ?_, ?_⟩⟩ <;> decide

/-- A reply received twice has the same effect: the first copy is received by
the waiting call, the second is looked up before the entry is removed, and its
send panics once the waiting call has closed the channel. -/
theorem race_duplicate_reply_panics :
    ∃ s, Race.run (Race.start RelayDevice.fresh "a1" [1])
        [.lookup demoReply, .deliver, .lookup demoReply, .remove, .close, .deliver] = some s ∧
      s.waiter = .returned ∧
      s.dispatch = .panicked := by
  refine ⟨_, rfl, ?_, ?_⟩ <;> decide

/-- A lookup that runs after the entry was removed finds nothing: the dispatch
loop stays at the top of its loop and sends nothing. -/
theorem race_lookup_after_remove (s : Race.Config) (m : resMsg)
    (hid : m.ReqID = s.reqID) (hd : s.dispatch = .idle) (hw : s.waiter = .selecting) :
    ∃ s1, Race.run s [.remove, .lookup m] = some s1 ∧ s1.dispatch = .idle ∧
      s1.dev.msgChanMap s.reqID = none := by
  refine ⟨{ s with dev := delMsgChan s.dev s.reqID, waiter := .removed }, ?_, hd, ?_⟩
  · simp [Race.run, Race.step, hw, hd, getMsgChan, delMsgChan, hid]
  · simp [delMsgChan]

/-! ### Reachable devices -/

/-- The device `NewRelayDevice` starts from is live with an unused `sync.Once`. -/
theorem FlagUnderOnce_fresh : FlagUnderOnce RelayDevice.fresh := by
  intro h
  cases h

/-- Method `sendMsg` changes neither the flag nor the `sync.Once`. -/
theorem sendMsg_keeps_flags (d : RelayDevice) (reqID : String) (msg : Bytes) (w : WaitOutcome) :
    (sendMsg d reqID msg w).1.isTerminated = d.isTerminated ∧
    (sendMsg d reqID msg w).1.terminateOnce = d.terminateOnce := by
  cases h : d.isTerminated with
  | true => simp [sendMsg, IsTerminated, h]
  | false =>
    rw [sendMsg_state d reqID msg w h]
    simp [closeChan, delMsgChan, setMsgChan, makeChan, h]

/-- The methods keep `FlagUnderOnce`. -/
theorem FlagUnderOnce_preserved (j : Codec) (d : RelayDevice) (reqID : String) (msg : Bytes)
    (w : WaitOutcome) (receivers : List Chan) (ev : Inbound) (h : FlagUnderOnce d) :
    FlagUnderOnce (sendMsg d reqID msg w).1 ∧
    FlagUnderOnce (Terminate j d reqID w).1 ∧
    FlagUnderOnce (recvMsgStep j d receivers ev).1 := by
  refine ⟨?_, ?_, ?_⟩
  · intro ht
    rw [(sendMsg_keeps_flags d reqID msg w).1] at ht
    rw [(sendMsg_keeps_flags d reqID msg w).2]
    exact h ht
  · intro _
    exact Terminate_marks_once j d reqID w
  · rw [recvMsgStep_device j d receivers ev]
    exact h

/-- The device `NewRelayDevice` starts from has no registered channel. -/
theorem SlotsOpen_fresh : SlotsOpen RelayDevice.fresh := by
  intro k c h
  cases h

/-- Method `sendMsg` keeps every registered reply channel open: the channel it
closes is the fresh one, whose entry it has deleted. -/
theorem SlotsOpen_sendMsg (d : RelayDevice) (reqID : String) (msg : Bytes) (w : WaitOutcome)
    (h : SlotsOpen d) : SlotsOpen (sendMsg d reqID msg w).1 := by
  cases ht : d.isTerminated with
  | true =>
    have hs : (sendMsg d reqID msg w).1 = d := by simp [sendMsg, IsTerminated, ht]
    rw [hs]
    exact h
  | false =>
    rw [sendMsg_state d reqID msg w ht]
    intro k c hk
    by_cases hkr : k = reqID
    · simp [closeChan, delMsgChan, hkr] at hk
    · have hk1 : d.msgChanMap k = some c := by
        simpa [closeChan, delMsgChan, setMsgChan, makeChan, hkr] using hk
      obtain ⟨hlt, hopen⟩ := h k c hk1
      refine ⟨?_, ?_⟩
      · exact Nat.lt_succ_of_lt hlt
      · simp only [closeChan, delMsgChan, setMsgChan, makeChan, List.mem_cons, not_or]
        exact ⟨Nat.ne_of_lt hlt, hopen⟩

/-- On a device whose registered channels are all open, an iteration of
`recvMsg` that looks up and sends in one step never panics: the panic of the
send needs the channel to be closed between the lookup and the send. -/
theorem recvMsgStep_no_panic_when_open (j : Codec) (d : RelayDevice) (receivers : List Chan)
    (ev : Inbound) (h : SlotsOpen d) : (recvMsgStep j d receivers ev).2 ≠ .panicked := by
  cases ev with
  | stop => simp [recvMsgStep]
  | closed => simp [recvMsgStep]
  | msg payload =>
    rcases hu : j.unmarshal payload resMsg.zero with ⟨m, e⟩
    cases e with
    | some e => simp [recvMsgStep, hu]
    | none =>
      cases hc : d.msgChanMap m.ReqID with
      | none => simp [recvMsgStep, hu, getMsgChan, hc]
      | some c =>
        have hopen : c ∉ d.closedChans := (h m.ReqID c hc).2
        by_cases hr : c ∈ receivers <;>
          simp [recvMsgStep, hu, getMsgChan, hc, chanSend, hopen, hr]

/-- The step `deliver` of the small-step model resolves its send as
`chanSend` does, with the waiting call as the only receiver. -/
theorem race_deliver_is_chanSend (s : Race.Config) (c : Chan) (m : resMsg)
    (h : s.dispatch = .sending c m) :
    (Race.step s .deliver).map (fun s1 => s1.dispatch) =
      match chanSend s.dev.closedChans (Race.receivers s) c with
      | .received => some .idle
      | .blocked => none
      | .panicked => some .panicked := by
  by_cases hcl : c ∈ s.dev.closedChans
  · simp [Race.step, h, chanSend, hcl]
  · cases hw : s.waiter with
    | selecting =>
      by_cases hc : c = s.resC
      · subst hc
        simp [Race.step, h, chanSend, hcl, Race.receivers, hw]
      · simp [Race.step, h, chanSend, hcl, Race.receivers, hw, hc]
    | received res => simp [Race.step, h, chanSend, hcl, Race.receivers, hw]
    | removed => simp [Race.step, h, chanSend, hcl, Race.receivers, hw]
    | returned => simp [Race.step, h, chanSend, hcl, Race.receivers, hw]

end RelayGo
